import Mathlib

/-!
Shallow embedding of the authentication core of the tudu-server repository
(src/api/controllers/UserController.js, src/api/dao/UserDAO.js, the
GlobalDAO variant that provides findOneAndUpdate, src/api/models/User.js,
and the user routes with the adminKey middleware).

Conventions of the embedding:
* The document store (MongoDB via mongoose) is a list of user documents;
  mongoose findOne returns the first matching document of the list.
* Time is a single natural-number clock in milliseconds; jsonwebtoken
  ttls ("2h", "1h") are carried in the same unit.
* A jsonwebtoken string is modelled as either a signed token carrying its
  claims, its expiry instant and the secret it was signed with, or an
  arbitrary malformed string; jwt.verify succeeds exactly on tokens signed
  with the same secret and not yet expired, and distinguishes the expired
  error from the invalid-signature error, as the library does.
* bcrypt is an external primitive: operations that hash take a function
  bhash : String -> String (the salt nondeterminism is elided), operations
  that compare take bcompare : String -> String -> Bool, exactly where the
  JavaScript calls bcrypt.hash / bcrypt.compare.
* A JavaScript throw inside a controller try block is modelled by
  returning the response produced by the corresponding catch block.
-/

namespace Tudu

/-- Claims payload of a jsonwebtoken: login signs userId and email,
forgotPassword signs only userId (UserController.js lines 164-171 and
341-345). -/
structure JwtClaims where
  userId : Nat
  email : Option String
  deriving DecidableEq, Repr

/-- Model of a jsonwebtoken token string: a token produced by jwt.sign
(carrying claims, expiry instant and signing secret), or a string that is
not a well-formed signed token. -/
inductive Token where
  | signed (claims : JwtClaims) (exp : Nat) (secret : String)
  | malformed (raw : String)
  deriving DecidableEq, Repr

/-- jwt.sign(claims, secret, expiresIn : ttl). -/
def jwtSign (claims : JwtClaims) (secret : String) (now ttlMs : Nat) : Token :=
  Token.signed claims (now + ttlMs) secret

/-- The two error classes of jwt.verify that the code can observe:
TokenExpiredError and JsonWebTokenError (bad signature / garbage). -/
inductive JwtError where
  | expired
  | invalid
  deriving DecidableEq, Repr

/-- jwt.verify(token, secret): ok with the claims when the signature
matches and the ttl has not elapsed, error otherwise. -/
def jwtVerify (t : Token) (secret : String) (now : Nat) : Except JwtError JwtClaims :=
  match t with
  | Token.malformed _ => Except.error JwtError.invalid
  | Token.signed c exp s =>
      if s = secret then
        if now < exp then Except.ok c else Except.error JwtError.expired
      else Except.error JwtError.invalid

/-- A stored user document (UserSchema in src/api/models/User.js).
password holds the bcrypt hash; resetPasswordToken / resetPasswordExpires
are the transient reset-claim pair; isLocked defaults to false. -/
structure UserDoc where
  id : Nat
  username : Option String
  firstName : String
  lastName : String
  email : String
  age : Option Nat
  password : String
  resetPasswordToken : Option Token
  resetPasswordExpires : Option Nat
  isLocked : Bool
  deriving DecidableEq, Repr

/-- The user collection: mongoose findOne scans it front to back. -/
abbrev Store := List UserDoc

/-- The profile shape sent by UserController.read after destructuring away
password, resetPasswordToken and resetPasswordExpires (lines 68-73). -/
structure Profile where
  id : Nat
  username : Option String
  firstName : String
  lastName : String
  email : String
  age : Option Nat
  deriving DecidableEq, Repr

/-- Bodies of the JSON responses the user controller sends. -/
inductive Body where
  | msg (message : String)
  | msgToken (message : String) (token : Token)
  | msgUser (message : String) (user : UserDoc)
  | profile (p : Profile)
  | doc (u : UserDoc)
  deriving DecidableEq, Repr

/-- An HTTP response: status code and JSON body. -/
structure Response where
  status : Nat
  body : Body
  deriving DecidableEq, Repr

/-- UserDAO.findByEmail (src/api/dao/UserDAO.js lines 81-103): findOne on
the email field; throws Error("Correo o contraseña inválidos") when no
document matches (the catch block rethrows with the same message). -/
def findByEmail (st : Store) (email : String) : Except String UserDoc :=
  match st.find? (fun u => u.email == email) with
  | some u => Except.ok u
  | none => Except.error "Correo o contraseña inválidos"

/-- Persistence of user.save(): mongoose writes the document back over
the stored document carrying the same _id. -/
def saveUser (st : Store) (u : UserDoc) : Store :=
  st.map (fun v => if v.id == u.id then u else v)

/-- UserSchema.methods.validatePassword (User.js lines 217-219):
bcrypt.compare of the candidate against the stored hash. -/
def validatePassword (bcompare : String → String → Bool) (u : UserDoc)
    (data : String) : Bool :=
  bcompare data u.password

/-- UserController.login (UserController.js lines 130-184): find by email
(throws the generic message when absent), compare the password, reject
with the same generic 401 message on mismatch, only then check the lock
flag (423), and finally sign a 2 hour session token. Any throw lands in
the catch block, which answers 401 with the message of the error. -/
def login (bcompare : String → String → Bool) (secret : String) (now : Nat)
    (st : Store) (email password : String) : Response :=
  match findByEmail st email with
  | Except.error m => ⟨401, Body.msg m⟩
  | Except.ok user =>
      if !(validatePassword bcompare user password) then
        ⟨401, Body.msg "Correo o contraseña inválidos"⟩
      else if user.isLocked then
        ⟨423, Body.msg "Cuenta temporalmente bloqueada"⟩
      else
        ⟨200, Body.msgToken "Login successful"
          (jwtSign ⟨user.id, some user.email⟩ secret now 7200000)⟩

/-- GlobalDAO.findOneAndUpdate specialised to the query { email } and the
update { isLocked } used by lock/unlock, with option new: true (the
GlobalDAO revision that defines findOneAndUpdate). The email filter value
comes from destructuring req.body, so it may be undefined: mongoose drops
undefined-valued keys from a query filter, leaving the empty filter that
matches the first stored document. -/
def findOneAndUpdateLocked (st : Store) (emailFilter : Option String)
    (locked : Bool) : Option UserDoc × Store :=
  match st with
  | [] => (none, [])
  | u :: rest =>
      if (match emailFilter with
          | none => true
          | some e => u.email == e) then
        ((some { u with isLocked := locked }), { u with isLocked := locked } :: rest)
      else
        let r := findOneAndUpdateLocked rest emailFilter locked
        (r.1, u :: r.2)

/-- UserController.lock (lines 209-238): findOneAndUpdate on the body
email setting isLocked := true; 404 when no document matched, else 200
with the updated document. The :id route parameter is never consulted. -/
def lock (st : Store) (bodyEmail : Option String) : Response × Store :=
  match findOneAndUpdateLocked st bodyEmail true with
  | (none, st') => (⟨404, Body.msg "Usuario no encontrado"⟩, st')
  | (some u, st') => (⟨200, Body.msgUser "Cuenta bloqueada" u⟩, st')

/-- UserController.unlock (lines 263-292): findOneAndUpdate on the body
email setting isLocked := false; 404 when no document matched, else 200
with the updated document. The :id route parameter is never consulted. -/
def unlock (st : Store) (bodyEmail : Option String) : Response × Store :=
  match findOneAndUpdateLocked st bodyEmail false with
  | (none, st') => (⟨404, Body.msg "Usuario no encontrado"⟩, st')
  | (some u, st') => (⟨200, Body.msgUser "Cuenta desbloqueada" u⟩, st')

/-- A request as the PUT /users/:id/lock and /users/:id/unlock routes see
it: the :id path parameter, the x-admin-key header, and the body email. -/
structure LockReq where
  paramsId : String
  adminKeyHeader : Option String
  bodyEmail : Option String
  deriving DecidableEq, Repr

/-- Route PUT /users/:id/lock: the adminKey middleware (User.js lines
236-241) answers 403 Forbidden unless the x-admin-key header equals the
configured key, then UserController.lock runs. -/
def lockRoute (adminSecret : String) (st : Store) (req : LockReq) :
    Response × Store :=
  if req.adminKeyHeader = some adminSecret then lock st req.bodyEmail
  else (⟨403, Body.msg "Forbidden"⟩, st)

/-- Route PUT /users/:id/unlock, gated by the same adminKey middleware. -/
def unlockRoute (adminSecret : String) (st : Store) (req : LockReq) :
    Response × Store :=
  if req.adminKeyHeader = some adminSecret then unlock st req.bodyEmail
  else (⟨403, Body.msg "Forbidden"⟩, st)

/-- UserController.forgotPassword (lines 317-381): findByEmail throws the
generic login message when the email is unknown, so control reaches the
catch block and answers 500; the 202 anti-enumeration branch guarding a
null user is unreachable. When the user exists, a 1 hour reset token is
signed, stored with its expiry (save with validateBeforeSave: false, no
rehash since password is unmodified), the mail is dispatched (modelled as
always succeeding) and the 200 acknowledgment returned. -/
def forgotPassword (secret : String) (now : Nat) (st : Store)
    (email : String) : Response × Store :=
  match findByEmail st email with
  | Except.error _ => (⟨500, Body.msg "Inténtalo de nuevo más tarde"⟩, st)
  | Except.ok user =>
      let resetToken := jwtSign ⟨user.id, none⟩ secret now 3600000
      let user' := { user with
        resetPasswordToken := some resetToken,
        resetPasswordExpires := some (now + 3600000) }
      ((⟨200, Body.msg "Revisa tu correo para continuar"⟩ : Response),
        saveUser st user')

/-- UserController.read for GET /users/me (lines 59-79): findByEmail on
the email of the token throws when the user no longer exists, so control
reaches the catch block and answers 500; the 404 branch guarding a null
user is unreachable. On success the password, resetPasswordToken and
resetPasswordExpires fields are destructured away before responding. -/
def read (st : Store) (reqUserEmail : String) : Response :=
  match findByEmail st reqUserEmail with
  | Except.error _ => ⟨500, Body.msg "No pudimos obtener tu perfil"⟩
  | Except.ok user =>
      ⟨200, Body.profile ⟨user.id, user.username, user.firstName,
        user.lastName, user.email, user.age⟩⟩

/-- ASCII character class a-z of the strength regex. -/
def isAsciiLower (c : Char) : Bool := 'a' ≤ c && c ≤ 'z'

/-- ASCII character class A-Z of the strength regex. -/
def isAsciiUpper (c : Char) : Bool := 'A' ≤ c && c ≤ 'Z'

/-- Character class \d (0-9) of the strength regex. -/
def isAsciiDigit (c : Char) : Bool := '0' ≤ c && c ≤ '9'

/-- The fixed symbol set of the strength regex: @ $ ! % * ? & #. -/
def isPasswordSymbol (c : Char) : Bool :=
  c == '@' || c == '$' || c == '!' || c == '%' || c == '*' || c == '?' ||
    c == '&' || c == '#'

/-- The character class of the regex body: letters, digits and the fixed
symbol set; every character of a matching password is drawn from it. -/
def isPasswordChar (c : Char) : Bool :=
  isAsciiLower c || isAsciiUpper c || isAsciiDigit c || isPasswordSymbol c

/-- The password strength check of UserController.resetPassword (lines
435-442) and of UserSchema.isValidPassword: the semantics of the regex
(four lookaheads requiring one character of each class, then a full-match
body [A-Za-z\d@$!%*?&#] of length at least 8; the lookahead dot cannot
cross a newline, but a newline is excluded by the body anyway). -/
def isValidPassword (p : String) : Bool :=
  p.data.any isAsciiLower &&
  p.data.any isAsciiUpper &&
  p.data.any isAsciiDigit &&
  p.data.any isPasswordSymbol &&
  (p.data.all isPasswordChar && decide (8 ≤ p.length))

/-- Modelled from the spec: the strength policy exactly as the claim words
it, namely minimum length 8 and at least one lowercase letter, one
uppercase letter, one digit and one symbol of the fixed set, with no
constraint on the remaining characters. Kept separate from
isValidPassword so the two can be compared. -/
def specStrengthPolicy (p : String) : Bool :=
  decide (8 ≤ p.length) &&
  p.data.any isAsciiLower &&
  p.data.any isAsciiUpper &&
  p.data.any isAsciiDigit &&
  p.data.any isPasswordSymbol

/-- The mongoose query of resetPassword (lines 454-458): _id equals the
userId claim of the token, resetPasswordToken equals the presented token, and
resetPasswordExpires is present and strictly greater than Date.now(). -/
def resetQuery (uid : Nat) (tok : Token) (now : Nat) (v : UserDoc) : Bool :=
  v.id == uid && v.resetPasswordToken == some tok &&
    (match v.resetPasswordExpires with
     | some e => decide (now < e)
     | none => false)

/-- The document as a successful resetPassword persists it (lines
471-484): the bcrypt hash of the new password is stored and both reset
fields are cleared before user.save(). -/
def consumeReset (u : UserDoc) (newHash : String) : UserDoc :=
  { u with
    password := newHash,
    resetPasswordToken := none,
    resetPasswordExpires := none }

/-- UserController.resetPassword (lines 417-494): reject mismatched
confirmation with 400 before anything else; reject a weak password with
400; jwt.verify the token (a throw on an invalid or expired token lands in
the catch block, which answers 500); find the user whose stored reset
token matches and has not expired, else 400; on success store the bcrypt
hash of the new password (the pre-save hook hashes because password was
modified), clear both reset fields, persist, and answer 200. -/
def resetPassword (bhash : String → String) (secret : String) (now : Nat)
    (st : Store) (token : Token) (password confirmPassword : String) :
    Response × Store :=
  if password ≠ confirmPassword then
    (⟨400, Body.msg "Las contraseñas no coinciden"⟩, st)
  else if !(isValidPassword password) then
    ((⟨400, Body.msg "La contraseña debe tener al menos 8 caracteres, mayúscula, minúscula, número y carácter especial"⟩ : Response), st)
  else
    match jwtVerify token secret now with
    | Except.error _ => (⟨500, Body.msg "Inténtalo de nuevo más tarde"⟩, st)
    | Except.ok decoded =>
        match st.find? (resetQuery decoded.userId token now) with
        | none => (⟨400, Body.msg "Token inválido o expirado"⟩, st)
        | some user =>
            ((⟨200, Body.msg "Contraseña actualizada"⟩ : Response),
              saveUser st (consumeReset user (bhash password)))

/-- The fields a PUT /users/me/:id request body may carry (mongoose drops
absent fields from the update, so absence is Option.none). -/
structure UpdateBody where
  password : Option String := none
  username : Option String := none
  email : Option String := none
  firstName : Option String := none
  lastName : Option String := none
  age : Option Nat := none
  deriving DecidableEq, Repr

/-- Application by findByIdAndUpdate of an update document: every field
present in the update overwrites the stored field (no save hooks run, so
nothing is rehashed). -/
def applyUpdates (u : UserDoc) (b : UpdateBody) : UserDoc :=
  let newUsername : Option String := match b.username with
    | some s => some s
    | none => u.username
  let newAge : Option Nat := match b.age with
    | some a => some a
    | none => u.age
  { u with
    password := b.password.getD u.password,
    username := newUsername,
    email := b.email.getD u.email,
    firstName := b.firstName.getD u.firstName,
    lastName := b.lastName.getD u.lastName,
    age := newAge }

/-- UserController.update (lines 81-100): when the body carries an email
different from the authenticated email (JavaScript truthiness makes the
empty string skip the check), an existing user with that email yields 409;
otherwise the password field is destructured out of the body and the rest
is passed to GlobalDAO.update, i.e. findByIdAndUpdate on req.params.id.
GlobalDAO.update throws Document not found when the id matches nothing,
which the catch block of the controller turns into a 500. -/
def update (st : Store) (reqUserEmail : String) (paramsId : Nat)
    (b : UpdateBody) : Response × Store :=
  let emailConflict : Bool := match b.email with
    | some e => e != "" && e != reqUserEmail &&
        (st.find? (fun u => u.email == e)).isSome
    | none => false
  if emailConflict then
    (⟨409, Body.msg "Email already in use"⟩, st)
  else
    match st.find? (fun u => u.id == paramsId) with
    | none => (⟨500, Body.msg "No pudimos actualizar tu perfil"⟩, st)
    | some u =>
        let u' := applyUpdates u { b with password := none }
        ((⟨200, Body.doc u'⟩ : Response), saveUser st u')

/-! Helper lemmas about the store primitives. -/

/-- When a document matches the email filter, findOneAndUpdate updates the
first match in place and the updated store still finds it under the same
email (the update does not touch the email field). -/
theorem findOneAndUpdateLocked_of_find?_some (st : Store) (e : String)
    (b : Bool) (u : UserDoc)
    (h : st.find? (fun v => v.email == e) = some u) :
    ∃ st', findOneAndUpdateLocked st (some e) b =
        (some { u with isLocked := b }, st') ∧
      st'.find? (fun v => v.email == e) = some { u with isLocked := b } := by
  induction st with
  | nil => simp at h
  | cons w rest ih =>
      cases hw : w.email == e with
      | true =>
          simp only [List.find?_cons, hw] at h
          injection h with h
          subst h
          refine ⟨{ w with isLocked := b } :: rest, ?_, ?_⟩
          · simp [findOneAndUpdateLocked, hw]
          · simp [List.find?_cons, hw]
      | false =>
          simp only [List.find?_cons, hw] at h
          obtain ⟨st', h1, h2⟩ := ih h
          refine ⟨w :: st', ?_, ?_⟩
          · simp [findOneAndUpdateLocked, hw, h1]
          · simp [List.find?_cons, hw, h2]

/-- When no document matches the email filter, findOneAndUpdate returns
null and leaves the store as it was. -/
theorem findOneAndUpdateLocked_of_find?_none (st : Store) (e : String)
    (b : Bool) (h : st.find? (fun v => v.email == e) = none) :
    findOneAndUpdateLocked st (some e) b = (none, st) := by
  induction st with
  | nil => simp [findOneAndUpdateLocked]
  | cons w rest ih =>
      cases hw : w.email == e with
      | true => simp [List.find?_cons, hw] at h
      | false =>
          simp only [List.find?_cons, hw] at h
          simp [findOneAndUpdateLocked, hw, ih h]

/-- Saving a document makes it the one found under its id. -/
theorem saveUser_find_id (st : Store) (u u' : UserDoc) (hmem : u ∈ st)
    (hid : u'.id = u.id) :
    (saveUser st u').find? (fun v => v.id == u'.id) = some u' := by
  induction st with
  | nil => cases hmem
  | cons w rest ih =>
      simp only [saveUser, List.map_cons]
      by_cases hw : (w.id == u'.id) = true
      · rw [if_pos hw]
        simp [List.find?_cons]
      · rw [if_neg hw]
        have hwf : (w.id == u'.id) = false := by simpa using hw
        have hmem' : u ∈ rest := by
          rcases List.mem_cons.mp hmem with h1 | h1
          · exact absurd (by simp [h1, hid]) hw
          · exact h1
        have hrec := ih hmem'
        simp only [saveUser] at hrec
        simp only [List.find?_cons, hwf]
        exact hrec

/-- After a save that clears the reset token of the document carrying the
queried id, no stored document matches the reset query for any presented
token at any time. -/
theorem saveUser_resetQuery_none (st : Store) (u' : UserDoc) (uid : Nat)
    (tok : Token) (now : Nat) (hid : u'.id = uid)
    (htok : u'.resetPasswordToken = none) :
    (saveUser st u').find? (resetQuery uid tok now) = none := by
  rw [List.find?_eq_none]
  intro x hx
  simp only [saveUser, List.mem_map] at hx
  obtain ⟨v, hv, rfl⟩ := hx
  by_cases h : v.id == u'.id
  · rw [if_pos h]
    simp [resetQuery, htok]
  · rw [if_neg h]
    simp only [resetQuery, Bool.and_eq_true, beq_iff_eq]
    rintro ⟨⟨h1, -⟩, -⟩
    exact h (by simp [h1, hid])

/-! Theorems settling the claims. -/

/-- C1: the claim says forgotPassword answers a generic 200/202
acknowledgment for every email, in particular 202 when no account exists.
The code instead answers 500: UserDAO.findByEmail throws when the email is
unknown, so the 202 branch is dead and the catch block responds 500. This
theorem evaluates forgotPassword at an unknown email over the empty store
and over a one-user store. -/
theorem forgotPassword_unknown_email_responds_500 :
    forgotPassword "secret" 1000 [] "ghost@mail.com" =
      ((⟨500, Body.msg "Inténtalo de nuevo más tarde"⟩ : Response), []) ∧
    forgotPassword "secret" 1000
        [⟨1, none, "Ana", "Diaz", "ana@mail.com", none, "h1", none, none, false⟩]
        "ghost@mail.com" =
      ((⟨500, Body.msg "Inténtalo de nuevo más tarde"⟩ : Response),
        [⟨1, none, "Ana", "Diaz", "ana@mail.com", none, "h1", none, none, false⟩]) :=
  ⟨by decide, by decide⟩

/-- C2: a login with a registered email and a wrong password and a login
with an unregistered email produce the same response: status 401 with the
generic message, so the response does not reveal which of email or
password was wrong. -/
theorem login_wrong_password_eq_unknown_email
    (bcompare : String → String → Bool) (secret : String) (now : Nat)
    (st : Store) (goodEmail badEmail pw1 pw2 : String) (u : UserDoc)
    (hreg : st.find? (fun v => v.email == goodEmail) = some u)
    (hwrong : bcompare pw1 u.password = false)
    (hmiss : st.find? (fun v => v.email == badEmail) = none) :
    login bcompare secret now st goodEmail pw1 =
      ⟨401, Body.msg "Correo o contraseña inválidos"⟩ ∧
    login bcompare secret now st badEmail pw2 =
      ⟨401, Body.msg "Correo o contraseña inválidos"⟩ := by
  constructor
  · simp [login, findByEmail, hreg, validatePassword, hwrong]
  · simp [login, findByEmail, hmiss]

/-- C2 witness: a concrete store where both failure modes coincide. -/
theorem login_wrong_password_eq_unknown_email_witness :
    (([⟨1, none, "Ana", "Diaz", "ana@mail.com", none, "h1", none, none, false⟩] :
        Store).find? (fun v => v.email == "ana@mail.com") =
      some ⟨1, none, "Ana", "Diaz", "ana@mail.com", none, "h1", none, none, false⟩) ∧
    login (fun _ _ => false) "secret" 0
        [⟨1, none, "Ana", "Diaz", "ana@mail.com", none, "h1", none, none, false⟩]
        "ana@mail.com" "wrongpw" =
      ⟨401, Body.msg "Correo o contraseña inválidos"⟩ ∧
    login (fun _ _ => false) "secret" 0
        [⟨1, none, "Ana", "Diaz", "ana@mail.com", none, "h1", none, none, false⟩]
        "ghost@mail.com" "anypw" =
      ⟨401, Body.msg "Correo o contraseña inválidos"⟩ := by
  refine ⟨by decide, ?_, ?_⟩
  · exact (login_wrong_password_eq_unknown_email (fun _ _ => false) "secret" 0 _
      "ana@mail.com" "ghost@mail.com" "wrongpw" "anypw"
      ⟨1, none, "Ana", "Diaz", "ana@mail.com", none, "h1", none, none, false⟩
      (by decide) (by decide) (by decide)).1
  · exact (login_wrong_password_eq_unknown_email (fun _ _ => false) "secret" 0 _
      "ana@mail.com" "ghost@mail.com" "wrongpw" "anypw"
      ⟨1, none, "Ana", "Diaz", "ana@mail.com", none, "h1", none, none, false⟩
      (by decide) (by decide) (by decide)).2

/-- C3: the claim says every invalid or expired token yields 400 and the
endpoint answers only 200 and 400. In the code jwt.verify throws
on a bad signature or an elapsed ttl and the catch block answers 500; only
the stored-token mismatch yields 400. This theorem evaluates the endpoint
on a garbage token and on a signature-valid but jwt-expired token, both
with a strong matching password: each answers 500. -/
theorem resetPassword_invalid_token_responds_500 :
    resetPassword (fun s => s) "secret" 1000 [] (Token.malformed "garbage")
        "Abcdef1@" "Abcdef1@" =
      ((⟨500, Body.msg "Inténtalo de nuevo más tarde"⟩ : Response), []) ∧
    resetPassword (fun s => s) "secret" 5000 []
        (Token.signed ⟨1, none⟩ 4000 "secret") "Abcdef1@" "Abcdef1@" =
      ((⟨500, Body.msg "Inténtalo de nuevo más tarde"⟩ : Response), []) :=
  ⟨by decide, by decide⟩

/-- C4: a reset token is single-use. With a signature-valid unexpired
token whose stored pair matches, a strong password equal to its
confirmation, and a fresh hash differing from the stored one, the first
resetPassword call answers 200 and persists the new hash with both reset
fields cleared; a second call presenting the same token (still within its
jwt ttl) answers the 400 invalid-or-expired outcome and leaves the store
exactly as the first call left it. -/
theorem resetPassword_single_use
    (bhash : String → String) (secret : String) (now now2 jexp : Nat)
    (st : Store) (uid : Nat) (em : Option String) (u : UserDoc) (p : String)
    (hjwt : now < jexp) (hjwt2 : now2 < jexp)
    (hstrong : isValidPassword p = true)
    (hfind : st.find? (resetQuery uid (Token.signed ⟨uid, em⟩ jexp secret) now)
      = some u)
    (hnew : bhash p ≠ u.password) :
    resetPassword bhash secret now st (Token.signed ⟨uid, em⟩ jexp secret) p p =
      ((⟨200, Body.msg "Contraseña actualizada"⟩ : Response),
        saveUser st (consumeReset u (bhash p))) ∧
    (saveUser st (consumeReset u (bhash p))).find? (fun v => v.id == u.id) =
      some (consumeReset u (bhash p)) ∧
    (consumeReset u (bhash p)).password ≠ u.password ∧
    (consumeReset u (bhash p)).resetPasswordToken = none ∧
    (consumeReset u (bhash p)).resetPasswordExpires = none ∧
    resetPassword bhash secret now2 (saveUser st (consumeReset u (bhash p)))
        (Token.signed ⟨uid, em⟩ jexp secret) p p =
      ((⟨400, Body.msg "Token inválido o expirado"⟩ : Response),
        saveUser st (consumeReset u (bhash p))) := by
  have huid : (u.id == uid) = true := by
    have hq := List.find?_some hfind
    simp only [resetQuery, Bool.and_eq_true] at hq
    exact hq.1.1
  have humem : u ∈ st := List.mem_of_find?_eq_some hfind
  refine ⟨?_, ?_, ?_, ?_, ?_, ?_⟩
  · simp [resetPassword, hstrong, jwtVerify, hjwt, hfind]
  · exact saveUser_find_id st u (consumeReset u (bhash p)) humem rfl
  · simpa [consumeReset] using hnew
  · rfl
  · rfl
  · have hnone := saveUser_resetQuery_none st (consumeReset u (bhash p)) uid
      (Token.signed ⟨uid, em⟩ jexp secret) now2
      (by simpa [consumeReset] using huid) rfl
    simp [resetPassword, hstrong, jwtVerify, hjwt2, hnone]

/-- C4 witness: a one-user store whose reset token is consumed once and
rejected on reuse. -/
theorem resetPassword_single_use_witness :
    resetPassword (fun s => String.append "H" s) "secret" 1000
        [⟨1, none, "Ana", "Diaz", "ana@mail.com", none, "oldhash",
          some (Token.signed ⟨1, none⟩ 5000 "secret"), some 9000, false⟩]
        (Token.signed ⟨1, none⟩ 5000 "secret") "Abcdef1@" "Abcdef1@" =
      ((⟨200, Body.msg "Contraseña actualizada"⟩ : Response),
        saveUser
          [⟨1, none, "Ana", "Diaz", "ana@mail.com", none, "oldhash",
            some (Token.signed ⟨1, none⟩ 5000 "secret"), some 9000, false⟩]
          (consumeReset
            ⟨1, none, "Ana", "Diaz", "ana@mail.com", none, "oldhash",
              some (Token.signed ⟨1, none⟩ 5000 "secret"), some 9000, false⟩
            (String.append "H" "Abcdef1@"))) ∧
    (saveUser
        [⟨1, none, "Ana", "Diaz", "ana@mail.com", none, "oldhash",
          some (Token.signed ⟨1, none⟩ 5000 "secret"), some 9000, false⟩]
        (consumeReset
          ⟨1, none, "Ana", "Diaz", "ana@mail.com", none, "oldhash",
            some (Token.signed ⟨1, none⟩ 5000 "secret"), some 9000, false⟩
          (String.append "H" "Abcdef1@"))).find? (fun v => v.id == 1) =
      some (consumeReset
        ⟨1, none, "Ana", "Diaz", "ana@mail.com", none, "oldhash",
          some (Token.signed ⟨1, none⟩ 5000 "secret"), some 9000, false⟩
        (String.append "H" "Abcdef1@")) ∧
    (consumeReset
      ⟨1, none, "Ana", "Diaz", "ana@mail.com", none, "oldhash",
        some (Token.signed ⟨1, none⟩ 5000 "secret"), some 9000, false⟩
      (String.append "H" "Abcdef1@")).password ≠ "oldhash" ∧
    (consumeReset
      ⟨1, none, "Ana", "Diaz", "ana@mail.com", none, "oldhash",
        some (Token.signed ⟨1, none⟩ 5000 "secret"), some 9000, false⟩
      (String.append "H" "Abcdef1@")).resetPasswordToken = none ∧
    (consumeReset
      ⟨1, none, "Ana", "Diaz", "ana@mail.com", none, "oldhash",
        some (Token.signed ⟨1, none⟩ 5000 "secret"), some 9000, false⟩
      (String.append "H" "Abcdef1@")).resetPasswordExpires = none ∧
    resetPassword (fun s => String.append "H" s) "secret" 2000
        (saveUser
          [⟨1, none, "Ana", "Diaz", "ana@mail.com", none, "oldhash",
            some (Token.signed ⟨1, none⟩ 5000 "secret"), some 9000, false⟩]
          (consumeReset
            ⟨1, none, "Ana", "Diaz", "ana@mail.com", none, "oldhash",
              some (Token.signed ⟨1, none⟩ 5000 "secret"), some 9000, false⟩
            (String.append "H" "Abcdef1@")))
        (Token.signed ⟨1, none⟩ 5000 "secret") "Abcdef1@" "Abcdef1@" =
      ((⟨400, Body.msg "Token inválido o expirado"⟩ : Response),
        saveUser
          [⟨1, none, "Ana", "Diaz", "ana@mail.com", none, "oldhash",
            some (Token.signed ⟨1, none⟩ 5000 "secret"), some 9000, false⟩]
          (consumeReset
            ⟨1, none, "Ana", "Diaz", "ana@mail.com", none, "oldhash",
              some (Token.signed ⟨1, none⟩ 5000 "secret"), some 9000, false⟩
            (String.append "H" "Abcdef1@"))) :=
  resetPassword_single_use (fun s => String.append "H" s) "secret" 1000 2000
    5000
    [⟨1, none, "Ana", "Diaz", "ana@mail.com", none, "oldhash",
      some (Token.signed ⟨1, none⟩ 5000 "secret"), some 9000, false⟩]
    1 none
    ⟨1, none, "Ana", "Diaz", "ana@mail.com", none, "oldhash",
      some (Token.signed ⟨1, none⟩ 5000 "secret"), some 9000, false⟩
    "Abcdef1@" (by decide) (by decide) (by decide) (by decide) (by decide)

/-- C5: after lock(email) succeeds, login with that email and the correct
password answers the distinct 423 outcome even though the credentials are
valid; the lock check runs only after credential verification, so a wrong
password on the locked account still gets the generic 401; and after
unlock(email), login with the correct password answers 200 with a session
token. -/
theorem lock_then_login
    (bcompare : String → String → Bool) (secret : String) (now : Nat)
    (st : Store) (e pw wpw : String) (u : UserDoc)
    (hfind : st.find? (fun v => v.email == e) = some u)
    (hpw : bcompare pw u.password = true)
    (hwpw : bcompare wpw u.password = false) :
    (lock st (some e)).1 =
      ⟨200, Body.msgUser "Cuenta bloqueada" { u with isLocked := true }⟩ ∧
    login bcompare secret now (lock st (some e)).2 e pw =
      ⟨423, Body.msg "Cuenta temporalmente bloqueada"⟩ ∧
    login bcompare secret now (lock st (some e)).2 e wpw =
      ⟨401, Body.msg "Correo o contraseña inválidos"⟩ ∧
    login bcompare secret now (unlock (lock st (some e)).2 (some e)).2 e pw =
      ⟨200, Body.msgToken "Login successful"
        (jwtSign ⟨u.id, some u.email⟩ secret now 7200000)⟩ := by
  obtain ⟨st1, hupd, hfind1⟩ :=
    findOneAndUpdateLocked_of_find?_some st e true u hfind
  have hlock2 : (lock st (some e)).2 = st1 := by simp [lock, hupd]
  have hlock1 : (lock st (some e)).1 =
      ⟨200, Body.msgUser "Cuenta bloqueada" { u with isLocked := true }⟩ := by
    simp [lock, hupd]
  obtain ⟨st2, hupd2, hfind2⟩ :=
    findOneAndUpdateLocked_of_find?_some st1 e false _ hfind1
  have hunlock2 : (unlock st1 (some e)).2 = st2 := by simp [unlock, hupd2]
  refine ⟨hlock1, ?_, ?_, ?_⟩
  · rw [hlock2]
    simp [login, findByEmail, hfind1, validatePassword, hpw]
  · rw [hlock2]
    simp [login, findByEmail, hfind1, validatePassword, hwpw]
  · rw [hlock2, hunlock2]
    simp [login, findByEmail, hfind2, validatePassword, hpw]

/-- C5 witness: a concrete account that is locked, rejected at login with
423, still 401 on a wrong password, then unlocked and logged in. -/
theorem lock_then_login_witness :
    (lock [⟨1, none, "Ana", "Diaz", "ana@mail.com", none, "h1", none, none,
        false⟩] (some "ana@mail.com")).1 =
      ⟨200, Body.msgUser "Cuenta bloqueada"
        ⟨1, none, "Ana", "Diaz", "ana@mail.com", none, "h1", none, none,
          true⟩⟩ ∧
    login (fun d _ => d == "goodpw") "secret" 42
        (lock [⟨1, none, "Ana", "Diaz", "ana@mail.com", none, "h1", none,
          none, false⟩] (some "ana@mail.com")).2 "ana@mail.com" "goodpw" =
      ⟨423, Body.msg "Cuenta temporalmente bloqueada"⟩ ∧
    login (fun d _ => d == "goodpw") "secret" 42
        (lock [⟨1, none, "Ana", "Diaz", "ana@mail.com", none, "h1", none,
          none, false⟩] (some "ana@mail.com")).2 "ana@mail.com" "badpw" =
      ⟨401, Body.msg "Correo o contraseña inválidos"⟩ ∧
    login (fun d _ => d == "goodpw") "secret" 42
        (unlock (lock [⟨1, none, "Ana", "Diaz", "ana@mail.com", none, "h1",
          none, none, false⟩] (some "ana@mail.com")).2 (some "ana@mail.com")).2
        "ana@mail.com" "goodpw" =
      ⟨200, Body.msgToken "Login successful"
        (jwtSign ⟨1, some "ana@mail.com"⟩ "secret" 42 7200000)⟩ :=
  lock_then_login (fun d _ => d == "goodpw") "secret" 42
    [⟨1, none, "Ana", "Diaz", "ana@mail.com", none, "h1", none, none, false⟩]
    "ana@mail.com" "goodpw" "badpw"
    ⟨1, none, "Ana", "Diaz", "ana@mail.com", none, "h1", none, none, false⟩
    (by decide) (by decide) (by decide)

/-- C6 counterexample: the password Aa1@aaaa( has length 9 and contains a
lowercase letter, an uppercase letter, a digit and the symbol @ of the
fixed set, so it satisfies the policy exactly as the claim states it, yet
the strength check rejects it (the regex body also restricts every
character to letters, digits and the fixed symbols, and ( is not among
them), and resetPassword answers the weak-password 400 for it. -/
theorem strength_policy_counterexample :
    specStrengthPolicy "Aa1@aaaa(" = true ∧
    isValidPassword "Aa1@aaaa(" = false ∧
    (resetPassword (fun s => s) "secret" 0 [] (Token.malformed "t")
        "Aa1@aaaa(" "Aa1@aaaa(").1 =
      ⟨400, Body.msg "La contraseña debe tener al menos 8 caracteres, mayúscula, minúscula, número y carácter especial"⟩ :=
  ⟨by decide, by decide, by decide⟩

/-- C6 amended: resetPassword with a matching confirmation answers the
weak-password 400 exactly when the strength check fails, and a password
passes the strength check if and only if it has length at least 8, every
character is a letter, a digit or a symbol of the fixed set, and it
contains at least one lowercase letter, one uppercase letter, one digit
and one symbol of the fixed set. -/
theorem resetPassword_strength_amended
    (bhash : String → String) (secret : String) (now : Nat) (st : Store)
    (tok : Token) (p : String) :
    ((resetPassword bhash secret now st tok p p).1 =
        ⟨400, Body.msg "La contraseña debe tener al menos 8 caracteres, mayúscula, minúscula, número y carácter especial"⟩ ↔
      isValidPassword p = false) ∧
    (isValidPassword p = true ↔
      (8 ≤ p.length ∧ (∀ c ∈ p.data, isPasswordChar c = true) ∧
        (∃ c ∈ p.data, isAsciiLower c = true) ∧
        (∃ c ∈ p.data, isAsciiUpper c = true) ∧
        (∃ c ∈ p.data, isAsciiDigit c = true) ∧
        (∃ c ∈ p.data, isPasswordSymbol c = true))) := by
  constructor
  · by_cases h : isValidPassword p
    · simp only [h, Bool.true_eq_false, iff_false]
      simp only [resetPassword, ne_eq, not_true_eq_false, if_false, h,
        Bool.not_true, Bool.false_eq_true]
      rcases hj : jwtVerify tok secret now with e | d
      · simp [Response.mk.injEq]
      · rcases hf : st.find? (resetQuery d.userId tok now) with - | w
        · simp [hf, Response.mk.injEq]
        · simp [hf, Response.mk.injEq]
    · have hb : isValidPassword p = false := by simpa using h
      simp [resetPassword, hb]
  · simp only [isValidPassword, Bool.and_eq_true, List.any_eq_true,
      List.all_eq_true, decide_eq_true_eq]
    tauto

/-- C7: a resetPassword request whose password and confirmation differ is
answered 400 with the mismatch message and the store is returned exactly
as it was: the rejection happens before the strength check, the token
verification and any store access. -/
theorem resetPassword_mismatch_no_mutation
    (bhash : String → String) (secret : String) (now : Nat) (st : Store)
    (tok : Token) (p c : String) (h : p ≠ c) :
    resetPassword bhash secret now st tok p c =
      ((⟨400, Body.msg "Las contraseñas no coinciden"⟩ : Response), st) := by
  simp [resetPassword, h]

/-- C7 witness: a concrete mismatched pair over a one-user store. -/
theorem resetPassword_mismatch_no_mutation_witness :
    ("Abcdef1@" ≠ "Zzzzzz9$") ∧
    resetPassword (fun s => s) "secret" 7
        [⟨1, none, "Ana", "Diaz", "ana@mail.com", none, "h1", none, none,
          false⟩]
        (Token.malformed "t") "Abcdef1@" "Zzzzzz9$" =
      ((⟨400, Body.msg "Las contraseñas no coinciden"⟩ : Response),
        [⟨1, none, "Ana", "Diaz", "ana@mail.com", none, "h1", none, none,
          false⟩]) :=
  ⟨by decide, resetPassword_mismatch_no_mutation (fun s => s) "secret" 7
    [⟨1, none, "Ana", "Diaz", "ana@mail.com", none, "h1", none, none, false⟩]
    (Token.malformed "t") "Abcdef1@" "Zzzzzz9$" (by decide)⟩

/-- C8: the claim says GET /users/me answers 200 with the password hash
and the reset fields stripped, and 404 when the user of the token no longer
exists. The stripping holds, but on a missing user the code answers 500:
UserDAO.findByEmail throws, so the 404 branch of the controller is dead and the
catch block responds 500. This theorem evaluates read on a store without
the requested user and on a store with it. -/
theorem read_missing_user_responds_500 :
    read [] "ghost@mail.com" = ⟨500, Body.msg "No pudimos obtener tu perfil"⟩ ∧
    read [⟨1, some "ana", "Ana", "Diaz", "ana@mail.com", some 30, "h1",
        some (Token.malformed "t"), some 99, false⟩] "ana@mail.com" =
      ⟨200, Body.profile ⟨1, some "ana", "Ana", "Diaz", "ana@mail.com",
        some 30⟩⟩ :=
  ⟨by decide, by decide⟩

/-- C9: the profile-update operation never changes any stored password
hash: whatever the request body carries, including a password field, the
password is destructured out before the update reaches the store, so the
sequence of stored hashes is unchanged by update (assuming the stored
ids are unique, as the _id primary key guarantees). -/
theorem update_preserves_password_hashes (st : Store) (reqUserEmail : String)
    (paramsId : Nat) (b : UpdateBody)
    (hids : (st.map (fun u => u.id)).Nodup) :
    ((update st reqUserEmail paramsId b).2).map (fun u => u.password) =
      st.map (fun u => u.password) := by
  simp only [update]
  split
  · rfl
  · rcases heq : st.find? (fun u => u.id == paramsId) with - | u
    · simp [heq]
    · simp only [heq]
      have humem : u ∈ st := List.mem_of_find?_eq_some heq
      show (saveUser st (applyUpdates u { b with password := none })).map
          (fun u => u.password) = st.map (fun u => u.password)
      rw [saveUser, List.map_map]
      apply List.map_congr_left
      intro v hv
      by_cases hvid :
          (v.id == (applyUpdates u { b with password := none }).id) = true
      · have hvu : v = u := by
          apply List.inj_on_of_nodup_map hids hv humem
          simpa [applyUpdates] using hvid
        subst hvu
        simp [Function.comp, hvid, applyUpdates]
      · simp [Function.comp, hvid]

/-- C9 witness: an update carrying a password field leaves the stored
hash untouched. -/
theorem update_preserves_password_hashes_witness :
    (([⟨1, none, "Ana", "Diaz", "ana@mail.com", none, "h1", none, none,
        false⟩] : Store).map (fun u => u.id)).Nodup ∧
    ((update
        [⟨1, none, "Ana", "Diaz", "ana@mail.com", none, "h1", none, none,
          false⟩]
        "ana@mail.com" 1
        ⟨some "EvilPass1@", some "ana2", none, some "Ann", none,
          some 44⟩).2).map (fun u => u.password) =
      ([⟨1, none, "Ana", "Diaz", "ana@mail.com", none, "h1", none, none,
        false⟩] : Store).map (fun u => u.password) :=
  ⟨by decide, update_preserves_password_hashes
    [⟨1, none, "Ana", "Diaz", "ana@mail.com", none, "h1", none, none, false⟩]
    "ana@mail.com" 1
    ⟨some "EvilPass1@", some "ana2", none, some "Ann", none, some 44⟩
    (by decide)⟩

/-- C10 counterexample: with a valid admin key and a request body lacking
the email, lock answers 200 and locks the first stored account instead of
answering 404: the undefined-valued email key is dropped from the mongoose
filter, which then matches the first document. -/
theorem lock_missing_email_counterexample :
    lockRoute "adminsecret"
        [⟨1, none, "Ana", "Diaz", "ana@mail.com", none, "h1", none, none,
          false⟩]
        ⟨"42", some "adminsecret", none⟩ =
      ((⟨200, Body.msgUser "Cuenta bloqueada"
          ⟨1, none, "Ana", "Diaz", "ana@mail.com", none, "h1", none, none,
            true⟩⟩ : Response),
        [⟨1, none, "Ana", "Diaz", "ana@mail.com", none, "h1", none, none,
          true⟩]) ∧
    (lockRoute "adminsecret"
        [⟨1, none, "Ana", "Diaz", "ana@mail.com", none, "h1", none, none,
          false⟩]
        ⟨"42", some "adminsecret", none⟩).1.status ≠ 404 :=
  ⟨by decide, by decide⟩

/-- C10 amended: with a valid admin key, lock and unlock select the target
solely by the body email and never read the :id path parameter; when the
body carries an email the account with that email is updated, with 404
when no account has it; when the body lacks the email, the undefined key
is dropped from the filter, so 404 arises only on an empty store and a
non-empty store has its first account (un)locked with 200. -/
theorem lock_unlock_by_body_email
    (adminSecret : String) (st : Store) (req : LockReq)
    (hkey : req.adminKeyHeader = some adminSecret) :
    (∀ i : String,
      lockRoute adminSecret st { req with paramsId := i } =
        lockRoute adminSecret st req ∧
      unlockRoute adminSecret st { req with paramsId := i } =
        unlockRoute adminSecret st req) ∧
    (∀ e u, req.bodyEmail = some e →
      st.find? (fun v => v.email == e) = some u →
      (lockRoute adminSecret st req).1 =
        ⟨200, Body.msgUser "Cuenta bloqueada" { u with isLocked := true }⟩ ∧
      (unlockRoute adminSecret st req).1 =
        ⟨200, Body.msgUser "Cuenta desbloqueada"
          { u with isLocked := false }⟩) ∧
    (∀ e, req.bodyEmail = some e →
      st.find? (fun v => v.email == e) = none →
      lockRoute adminSecret st req =
        ((⟨404, Body.msg "Usuario no encontrado"⟩ : Response), st) ∧
      unlockRoute adminSecret st req =
        ((⟨404, Body.msg "Usuario no encontrado"⟩ : Response), st)) ∧
    (req.bodyEmail = none → st = [] →
      lockRoute adminSecret st req =
        ((⟨404, Body.msg "Usuario no encontrado"⟩ : Response), []) ∧
      unlockRoute adminSecret st req =
        ((⟨404, Body.msg "Usuario no encontrado"⟩ : Response), [])) ∧
    (∀ w rest, req.bodyEmail = none → st = w :: rest →
      lockRoute adminSecret st req =
        ((⟨200, Body.msgUser "Cuenta bloqueada"
            { w with isLocked := true }⟩ : Response),
          { w with isLocked := true } :: rest) ∧
      unlockRoute adminSecret st req =
        ((⟨200, Body.msgUser "Cuenta desbloqueada"
            { w with isLocked := false }⟩ : Response),
          { w with isLocked := false } :: rest)) := by
  refine ⟨?_, ?_, ?_, ?_, ?_⟩
  · intro i
    constructor
    · simp [lockRoute, hkey]
    · simp [unlockRoute, hkey]
  · intro e u he hf
    obtain ⟨st1, h1, -⟩ := findOneAndUpdateLocked_of_find?_some st e true u hf
    obtain ⟨st2, h2, -⟩ := findOneAndUpdateLocked_of_find?_some st e false u hf
    constructor
    · simp [lockRoute, hkey, lock, he, h1]
    · simp [unlockRoute, hkey, unlock, he, h2]
  · intro e he hf
    have h1 := findOneAndUpdateLocked_of_find?_none st e true hf
    have h2 := findOneAndUpdateLocked_of_find?_none st e false hf
    constructor
    · simp [lockRoute, hkey, lock, he, h1]
    · simp [unlockRoute, hkey, unlock, he, h2]
  · intro he hst
    subst hst
    constructor
    · simp [lockRoute, hkey, lock, he, findOneAndUpdateLocked]
    · simp [unlockRoute, hkey, unlock, he, findOneAndUpdateLocked]
  · intro w rest he hst
    subst hst
    constructor
    · simp [lockRoute, hkey, lock, he, findOneAndUpdateLocked]
    · simp [unlockRoute, hkey, unlock, he, findOneAndUpdateLocked]

/-- C10 witness: a concrete admin-keyed request whose body email selects
the stored account. -/
theorem lock_unlock_by_body_email_witness :
    ((⟨"7", some "adm", some "ana@mail.com"⟩ : LockReq).adminKeyHeader =
      some "adm") ∧
    (lockRoute "adm"
        [⟨1, none, "Ana", "Diaz", "ana@mail.com", none, "h1", none, none,
          false⟩]
        ⟨"7", some "adm", some "ana@mail.com"⟩).1 =
      ⟨200, Body.msgUser "Cuenta bloqueada"
        ⟨1, none, "Ana", "Diaz", "ana@mail.com", none, "h1", none, none,
          true⟩⟩ ∧
    (unlockRoute "adm"
        [⟨1, none, "Ana", "Diaz", "ana@mail.com", none, "h1", none, none,
          false⟩]
        ⟨"7", some "adm", some "ana@mail.com"⟩).1 =
      ⟨200, Body.msgUser "Cuenta desbloqueada"
        ⟨1, none, "Ana", "Diaz", "ana@mail.com", none, "h1", none, none,
          false⟩⟩ := by
  refine ⟨rfl, ?_, ?_⟩
  · exact ((lock_unlock_by_body_email "adm"
      [⟨1, none, "Ana", "Diaz", "ana@mail.com", none, "h1", none, none,
        false⟩]
      ⟨"7", some "adm", some "ana@mail.com"⟩ rfl).2.1 "ana@mail.com"
      ⟨1, none, "Ana", "Diaz", "ana@mail.com", none, "h1", none, none, false⟩
      rfl (by decide)).1
  · exact ((lock_unlock_by_body_email "adm"
      [⟨1, none, "Ana", "Diaz", "ana@mail.com", none, "h1", none, none,
        false⟩]
      ⟨"7", some "adm", some "ana@mail.com"⟩ rfl).2.1 "ana@mail.com"
      ⟨1, none, "Ana", "Diaz", "ana@mail.com", none, "h1", none, none, false⟩
      rfl (by decide)).2

end Tudu
